import Mathlib

/-!
Verification development for the `cryptomus` Go client library.

The Go source is shallowly embedded: pure helpers (MD5, base64, hex, the
digest signer, JSON serialization of webhook payloads, the constant-time
comparison from `crypto/subtle`) become executable Lean functions over `Nat`
byte lists; the HTTP boundary (sending a request, decoding one response
page) is represented by explicit request values and by page-fetch oracles,
and loops become fuel-indexed recursions where `none` marks fuel exhaustion
(i.e. the Go loop not having terminated within the given bound).
Machine integers are modelled as `Nat` reduced `% 2^32` where Go's `uint32`
arithmetic wraps.
-/

set_option maxRecDepth 100000
set_option linter.unusedVariables false

namespace Cryptomus

/-! ## Bit-level primitives (32-bit words as `Nat % 2^32`) -/

/-- Bitwise OR of the low `n` bits (`(a + b + 1) / 2` on single bits). -/
def borAux : Nat → Nat → Nat → Nat
  | 0, _, _ => 0
  | n + 1, x, y => (x % 2 + y % 2 + 1) / 2 + 2 * borAux n (x / 2) (y / 2)

/-- Bitwise XOR of the low `n` bits (`(x + y) % 2` is the XOR of the low
bits). -/
def bxorAux : Nat → Nat → Nat → Nat
  | 0, _, _ => 0
  | n + 1, x, y => (x + y) % 2 + 2 * bxorAux n (x / 2) (y / 2)

def bxor32 (x y : Nat) : Nat := bxorAux 32 x y

/-- Bitwise mux on the low `n` bits: each result bit is the `c` bit where
the `b` bit is 1 and the `d` bit where it is 0. MD5's `F(b,c,d) =
(b AND c) OR (NOT b AND d)` is exactly this selection. -/
def muxAux : Nat → Nat → Nat → Nat → Nat
  | 0, _, _, _ => 0
  | n + 1, b, c, d =>
      (b % 2 * (c % 2) + (1 - b % 2) * (d % 2)) + 2 * muxAux n (b / 2) (c / 2) (d / 2)

/-- Three-way bitwise XOR of the low `n` bits (MD5's `H`). -/
def xor3Aux : Nat → Nat → Nat → Nat → Nat
  | 0, _, _, _ => 0
  | n + 1, b, c, d => (b + c + d) % 2 + 2 * xor3Aux n (b / 2) (c / 2) (d / 2)

/-- MD5's `I(b,c,d) = c XOR (b OR NOT d)` on the low `n` bits: per bit,
`b OR NOT d` is `(b + (1 - d) + 1) / 2` and the XOR with `c` is a sum
mod 2. -/
def i4Aux : Nat → Nat → Nat → Nat → Nat
  | 0, _, _, _ => 0
  | n + 1, b, c, d =>
      (c % 2 + (b % 2 + (1 - d % 2) + 1) / 2) % 2 + 2 * i4Aux n (b / 2) (c / 2) (d / 2)

/-- 32-bit left rotation. -/
def rotl32 (x n : Nat) : Nat :=
  ((x % 4294967296) * 2 ^ n + (x % 4294967296) / 2 ^ (32 - n)) % 4294967296

/-! ## Byte-string helpers -/

/-- Concatenation of the images of a list-valued function (Go `[]byte`
flattening). -/
def flatMapL (f : α → List β) : List α → List β
  | [] => []
  | a :: as => f a ++ flatMapL f as

/-- UTF-8 encoding of one character, as Go produces when converting a
`string` to `[]byte`. -/
def utf8EncodeChar (c : Char) : List Nat :=
  let n := c.toNat
  if n < 128 then [n]
  else if n < 2048 then [192 + n / 64, 128 + n % 64]
  else if n < 65536 then [224 + n / 4096, 128 + n / 64 % 64, 128 + n % 64]
  else [240 + n / 262144, 128 + n / 4096 % 64, 128 + n / 64 % 64, 128 + n % 64]

/-- Go's `[]byte(s)`: the UTF-8 bytes of a string. -/
def strBytes (s : String) : List Nat := flatMapL utf8EncodeChar s.toList

/-! ## Lowercase hexadecimal rendering (Go `encoding/hex.EncodeToString`) -/

def hexDigitChars : List Char :=
  ['0', '1', '2', '3', '4', '5', '6', '7'] ++ ['8', '9', 'a', 'b', 'c', 'd', 'e', 'f']

def hexByte (b : Nat) : List Char :=
  [hexDigitChars.getD (b / 16 % 16) '0', hexDigitChars.getD (b % 16) '0']

def hexEncode (bs : List Nat) : String := String.mk (flatMapL hexByte bs)

/-! ## Standard base64 (Go `encoding/base64.StdEncoding.EncodeToString`) -/

def base64Table : List Char :=
  "ABCDEFGHIJKLMNOPQRSTUVWXYZabcdefghijklmnopqrstuvwxyz0123456789+/".toList

def b64c (n : Nat) : Char := base64Table.getD n 'A'

def base64StdEncode : List Nat → String
  | [] => ""
  | [a] => String.mk [b64c (a / 4), b64c (a % 4 * 16), '=', '=']
  | [a, b] => String.mk [b64c (a / 4), b64c (a % 4 * 16 + b / 16), b64c (b % 16 * 4), '=']
  | a :: b :: c :: rest =>
      String.mk [b64c (a / 4), b64c (a % 4 * 16 + b / 16),
                 b64c (b % 16 * 4 + c / 64), b64c (c % 64)] ++ base64StdEncode rest

/-! ## MD5 (Go `crypto/md5`), RFC 1321 -/

/-- The 64 sine-derived round constants of MD5. -/
def md5K : List Nat :=
  [0xd76aa478, 0xe8c7b756, 0x242070db, 0xc1bdceee,
   0xf57c0faf, 0x4787c62a, 0xa8304613, 0xfd469501,
   0x698098d8, 0x8b44f7af, 0xffff5bb1, 0x895cd7be,
   0x6b901122, 0xfd987193, 0xa679438e, 0x49b40821,
   0xf61e2562, 0xc040b340, 0x265e5a51, 0xe9b6c7aa,
   0xd62f105d, 0x02441453, 0xd8a1e681, 0xe7d3fbc8,
   0x21e1cde6, 0xc33707d6, 0xf4d50d87, 0x455a14ed,
   0xa9e3e905, 0xfcefa3f8, 0x676f02d9, 0x8d2a4c8a,
   0xfffa3942, 0x8771f681, 0x6d9d6122, 0xfde5380c,
   0xa4beea44, 0x4bdecfa9, 0xf6bb4b60, 0xbebfbc70,
   0x289b7ec6, 0xeaa127fa, 0xd4ef3085, 0x04881d05,
   0xd9d4d039, 0xe6db99e5, 0x1fa27cf8, 0xc4ac5665,
   0xf4292244, 0x432aff97, 0xab9423a7, 0xfc93a039,
   0x655b59c3, 0x8f0ccc92, 0xffeff47d, 0x85845dd1,
   0x6fa87e4f, 0xfe2ce6e0, 0xa3014314, 0x4e0811a1,
   0xf7537e82, 0xbd3af235, 0x2ad7d2bb, 0xeb86d391]

/-- The 64 per-round left-rotation amounts of MD5. -/
def md5S : List Nat :=
  [7, 12, 17, 22, 7, 12, 17, 22, 7, 12, 17, 22, 7, 12, 17, 22,
   5, 9, 14, 20, 5, 9, 14, 20, 5, 9, 14, 20, 5, 9, 14, 20,
   4, 11, 16, 23, 4, 11, 16, 23, 4, 11, 16, 23, 4, 11, 16, 23,
   6, 10, 15, 21, 6, 10, 15, 21, 6, 10, 15, 21, 6, 10, 15, 21]

structure MD5State where
  a : Nat
  b : Nat
  c : Nat
  d : Nat
  deriving DecidableEq

/-- The MD5 round mixing function, by round index: `F` and `G` are the
bitwise mux, `H` the three-way XOR, `I` is `c XOR (b OR NOT d)`. -/
def md5F (i b c d : Nat) : Nat :=
  if i < 16 then muxAux 32 b c d
  else if i < 32 then muxAux 32 d b c
  else if i < 48 then xor3Aux 32 b c d
  else i4Aux 32 b c d

/-- The MD5 message-word schedule, by round index. -/
def md5G (i : Nat) : Nat :=
  if i < 16 then i
  else if i < 32 then (5 * i + 1) % 16
  else if i < 48 then (3 * i + 5) % 16
  else (7 * i) % 16

/-- The 64 rounds, consuming the constant and shift tables in step; `i` is
the round index driving the mixing function and the word schedule. -/
def md5Rounds (M : List Nat) : List Nat → List Nat → Nat → MD5State → MD5State
  | [], _, _, st => st
  | _, [], _, st => st
  | k :: ks, s :: ss, i, st =>
      let t := (st.a + md5F i st.b st.c st.d + k + M.getD (md5G i) 0) % 4294967296
      let b' := (st.b + rotl32 t s) % 4294967296
      md5Rounds M ks ss (i + 1) ⟨st.d, b', st.b, st.c⟩

def md5Block (st : MD5State) (M : List Nat) : MD5State :=
  let r := md5Rounds M md5K md5S 0 st
  ⟨(st.a + r.a) % 4294967296, (st.b + r.b) % 4294967296,
   (st.c + r.c) % 4294967296, (st.d + r.d) % 4294967296⟩

/-- A 64-bit length rendered as 8 little-endian bytes. -/
def le8 (n : Nat) : List Nat :=
  [n % 256, n / 256 % 256, n / 65536 % 256, n / 16777216 % 256,
   n / 4294967296 % 256, n / 1099511627776 % 256,
   n / 281474976710656 % 256, n / 72057594037927936 % 256]

/-- MD5 padding: a `0x80` byte, zeros to 56 mod 64, then the bit length
little-endian. -/
def md5Pad (msg : List Nat) : List Nat :=
  let len := msg.length
  let k := (120 + 64 - (len + 1) % 64) % 64
  msg ++ 128 :: List.replicate k 0 ++ le8 (len * 8)

/-- Bytes to little-endian 32-bit words. -/
def toWords : List Nat → List Nat
  | a :: b :: c :: d :: rest => (a + 256 * b + 65536 * c + 16777216 * d) :: toWords rest
  | _ => []

/-- Split into 64-byte blocks, with fuel bounding the recursion. -/
def chunks64 : Nat → List Nat → List (List Nat)
  | 0, _ => []
  | _, [] => []
  | fuel + 1, l => l.take 64 :: chunks64 fuel (l.drop 64)

/-- A 32-bit word rendered as 4 little-endian bytes. -/
def wordLE (n : Nat) : List Nat :=
  [n % 256, n / 256 % 256, n / 65536 % 256, n / 16777216 % 256]

/-- The 16-byte MD5 digest of a byte sequence. -/
def md5Sum (msg : List Nat) : List Nat :=
  let padded := md5Pad msg
  let blocks := chunks64 padded.length padded
  let st := blocks.foldl (fun st blk => md5Block st (toWords blk))
    ⟨0x67452301, 0xefcdab89, 0x98badcfe, 0x10325476⟩
  wordLE st.a ++ wordLE st.b ++ wordLE st.c ++ wordLE st.d

/-- The lowercase-hex MD5 digest of a byte sequence. -/
def md5Hex (msg : List Nat) : String := hexEncode (md5Sum msg)

/-- RFC 1321 test vector: the digest of the empty message. -/
theorem md5Hex_empty : md5Hex [] = "d41d8cd98f00b204e9800998ecf8427e" := by decide

/-- RFC 1321 test vector: the digest of "abc". -/
theorem md5Hex_abc : md5Hex (strBytes "abc") = "900150983cd24fb0d6963f7d28e17f72" := by
  decide

/-- RFC 4648 check: base64 of "hello". -/
theorem base64_hello : base64StdEncode (strBytes "hello") = "aGVsbG8=" := by decide

/-! ## Personas (Go `Merchant` and `User` structs; the `http.Client` handle
carries no data relevant to the model) -/

structure Merchant where
  merchantUUID : String
  paymentAPIKey : String
  payoutAPIKey : String

structure User where
  userID : String
  paymentAPIKey : String
  payoutAPIKey : String

/-! ## Digest Signer (`signPaymentPayload` / `signPayoutPayload`)

The Go functions return `(string, error)` with the error always `nil`;
they are embedded as `Except String String` so that the absence of the
error case is a provable fact rather than an assumption. -/

def Merchant.signPaymentPayload (m : Merchant) (jsonData : List Nat) : Except String String :=
  let base64Data := base64StdEncode jsonData
  Except.ok (hexEncode (md5Sum (strBytes (base64Data ++ m.paymentAPIKey))))

def Merchant.signPayoutPayload (m : Merchant) (jsonData : List Nat) : Except String String :=
  let base64Data := base64StdEncode jsonData
  Except.ok (hexEncode (md5Sum (strBytes (base64Data ++ m.payoutAPIKey))))

def User.signPaymentPayload (u : User) (jsonData : List Nat) : Except String String :=
  let base64Data := base64StdEncode jsonData
  Except.ok (hexEncode (md5Sum (strBytes (base64Data ++ u.paymentAPIKey))))

def User.signPayoutPayload (u : User) (jsonData : List Nat) : Except String String :=
  let base64Data := base64StdEncode jsonData
  Except.ok (hexEncode (md5Sum (strBytes (base64Data ++ u.payoutAPIKey))))

/-- Modelled from the spec, §4.1 Digest Signer: "base64-encode the raw
bytes, concatenate the secret key as a suffix to the encoded string,
compute a 128-bit digest (MD5) over the UTF-8 bytes of that concatenation,
render as lowercase hexadecimal". Stated independently of the source
functions so that each of them can be proved to refine it. -/
def digestSignerSpec (b : List Nat) (key : String) : String :=
  md5Hex (strBytes (base64StdEncode b ++ key))

/-! ## Signed Request Envelope (`sendPaymentRequest` / `sendPayoutRequest`)

The envelope is modelled up to the network boundary: `json.Marshal` has
already produced `jsonData` (its bytes are the function's input), and the
value of the function is the fully-built outbound request that
`client.Do` would transmit. -/

structure HttpRequest where
  method : String
  url : String
  headers : List (String × String)
  body : List Nat
  deriving DecidableEq

def Merchant.buildPaymentRequest (m : Merchant) (method url : String)
    (jsonData : List Nat) : Except String HttpRequest :=
  match m.signPaymentPayload jsonData with
  | .error e => .error ("error generating signature: " ++ e)
  | .ok signature =>
      .ok { method := method, url := url,
            headers := [("Content-Type", "application/json"),
                        ("merchant", m.merchantUUID), ("sign", signature)],
            body := jsonData }

def Merchant.buildPayoutRequest (m : Merchant) (method url : String)
    (jsonData : List Nat) : Except String HttpRequest :=
  match m.signPayoutPayload jsonData with
  | .error e => .error ("error generating signature: " ++ e)
  | .ok signature =>
      .ok { method := method, url := url,
            headers := [("Content-Type", "application/json"),
                        ("merchant", m.merchantUUID), ("sign", signature)],
            body := jsonData }

def User.buildPaymentRequest (u : User) (method url : String)
    (jsonData : List Nat) : Except String HttpRequest :=
  match u.signPaymentPayload jsonData with
  | .error e => .error ("error signing request payload: " ++ e)
  | .ok signature =>
      .ok { method := method, url := url,
            headers := [("Content-Type", "application/json"),
                        ("userId", u.userID), ("sign", signature)],
            body := jsonData }

def User.buildPayoutRequest (u : User) (method url : String)
    (jsonData : List Nat) : Except String HttpRequest :=
  match u.signPayoutPayload jsonData with
  | .error e => .error ("error signing request payload: " ++ e)
  | .ok signature =>
      .ok { method := method, url := url,
            headers := [("Content-Type", "application/json"),
                        ("userId", u.userID), ("sign", signature)],
            body := jsonData }

/-! ## Response envelopes and per-call-site decoders

Each Go call site declares an anonymous envelope struct and aggregates
errors by hand; the envelopes below reproduce those shapes (generic in the
result payload type, which the claims never inspect), and each decoder
reproduces one call site's aggregation, taking the HTTP status code and
status text that Go reads off `httpResponse`. -/

structure SimpleEnvelope (α : Type) where
  state : Int
  result : α
  message : String
  code : Int
  error : String

structure RecordIDErrors where
  uuid : List String
  orderID : List String

structure RecordIDEnvelope (α : Type) where
  state : Int
  result : α
  message : String
  errors : RecordIDErrors
  code : Int
  error : String

structure LimitOrderErrors where
  fromMsgs : List String
  toMsgs : List String
  amountMsgs : List String
  priceMsgs : List String

structure LimitOrderEnvelope (α : Type) where
  state : Int
  result : α
  message : String
  errors : LimitOrderErrors
  code : Int
  error : String

structure HistoryErrors where
  dateFrom : List String
  dateTo : List String

structure HistoryEnvelope (α : Type) where
  state : Int
  result : α
  message : String
  errors : HistoryErrors
  code : Int
  error : String

/-- `User.CancelLimitOrder`, response-decoding part: collects `message`
and `error` unconditionally, then fails on non-OK status, nonzero state,
or a non-empty collected list. -/
def User.cancelLimitOrderDecode (sc : Nat) (statusText : String)
    (resp : SimpleEnvelope α) : Except String α :=
  let errs : List String :=
    (if resp.message ≠ "" then [resp.message] else []) ++
    (if resp.error ≠ "" then [resp.error] else [])
  if sc ≠ 200 ∨ resp.state ≠ 0 ∨ errs ≠ [] then
    .error ("error cancelling limit order with status " ++ statusText ++ ": " ++
      String.intercalate "; " errs)
  else .ok resp.result

/-- `Merchant.GetRecurringPaymentInformation`, response-decoding part:
collects `message`, then `error`, then `errors.uuid`, then
`errors.order_id`, unconditionally. -/
def Merchant.getRecurringPaymentInformationDecode (sc : Nat) (statusText : String)
    (resp : RecordIDEnvelope α) : Except String α :=
  let errs : List String :=
    (if resp.message ≠ "" then [resp.message] else []) ++
    (if resp.error ≠ "" then [resp.error] else []) ++
    resp.errors.uuid ++ resp.errors.orderID
  if sc ≠ 200 ∨ resp.state ≠ 0 ∨ errs ≠ [] then
    .error ("error getting recurring payment information with status " ++ statusText ++
      ": " ++ String.intercalate "; " errs)
  else .ok resp.result

/-- `User.CreateLimitOrder`, response-decoding part: collects `message`,
then `error`, then the `from`/`to`/`amount`/`price` validation lists,
unconditionally. -/
def User.createLimitOrderDecode (sc : Nat) (statusText : String)
    (resp : LimitOrderEnvelope α) : Except String α :=
  let errs : List String :=
    (if resp.message ≠ "" then [resp.message] else []) ++
    (if resp.error ≠ "" then [resp.error] else []) ++
    resp.errors.fromMsgs ++ resp.errors.toMsgs ++
    resp.errors.amountMsgs ++ resp.errors.priceMsgs
  if sc ≠ 200 ∨ resp.state ≠ 0 ∨ errs ≠ [] then
    .error ("error with status " ++ statusText ++ ": " ++ String.intercalate "; " errs)
  else .ok resp.result

/-- `Merchant.ListPaymentHistory`, first-page response-decoding part: the
source collects `message`, `errors.date_from`, `errors.date_to`, `error`
only under `StatusCode != http.StatusOK || response.State != 0`. -/
def Merchant.listPaymentHistoryFirstDecode (sc : Nat) (statusText : String)
    (resp : HistoryEnvelope α) : Except String α :=
  let errs : List String :=
    if sc ≠ 200 ∨ resp.state ≠ 0 then
      (if resp.message ≠ "" then [resp.message] else []) ++
      resp.errors.dateFrom ++ resp.errors.dateTo ++
      (if resp.error ≠ "" then [resp.error] else [])
    else []
  if sc ≠ 200 ∨ resp.state ≠ 0 ∨ errs ≠ [] then
    .error ("error with status " ++ statusText ++ ": " ++ String.intercalate "; " errs)
  else .ok resp.result

/-! ## Pagination Walker

`paginate` and the per-listing page shapes, from the source. The HTTP
fetch-and-decode of one further page (`nextPaymentHistoryPage` etc.) is
modelled by an oracle `fetch : Nat → String → Except String (HistPage α)`
whose arguments are the number of fetches already performed by the
operation and the cursor token appended to the listing URL; the initial
request of a listing operation is the oracle at call index `0` with the
empty cursor. Loops are run on fuel: `none` means the loop has not
terminated within the given number of iterations. -/

structure Paginate where
  count : Int
  hasPages : Bool
  nextCursor : String
  previousCursor : String
  perPage : Int
  deriving DecidableEq

structure HistPage (α : Type) where
  items : List α
  paginate : Paginate
  deriving DecidableEq

/-- The loop of `Merchant.ListPaymentHistory` / `ListPayoutHistory` /
`ListRecurringPayments`: `for page.Paginate.NextCursor != "" { page, err :=
m.nextPaymentHistoryPage(&page) ... }`. The `:=` inside the body declares a
NEW `page`, so the `cursor` read by the loop head (and passed to the fetch)
is the one of the page in scope OUTSIDE the loop and never changes; only
the accumulator advances. -/
def merchantWalkAux (fetch : Nat → String → Except String (HistPage α))
    (wrapMsg : String) (cursor : String) :
    List α → Nat → Nat → Option (Except String (List α × Nat))
  | acc, calls, 0 =>
      if cursor = "" then some (.ok (acc, calls)) else none
  | acc, calls, fuel + 1 =>
      if cursor = "" then some (.ok (acc, calls))
      else
        match fetch calls cursor with
        | .error e => some (.error (wrapMsg ++ e))
        | .ok page => merchantWalkAux fetch wrapMsg cursor (acc ++ page.items) (calls + 1) fuel

/-- The loop of `User.ListOrderHistory`: `page, err = u.nextOrderHistoryPage
(page.Paginate.NextCursor, ...)` assigns to the existing `page`, so the
cursor advances to the newly fetched page's next-cursor each iteration. -/
def userWalkAux (fetch : Nat → String → Except String (HistPage α))
    (wrapMsg : String) :
    String → List α → Nat → Nat → Option (Except String (List α × Nat))
  | cursor, acc, calls, 0 =>
      if cursor = "" then some (.ok (acc, calls)) else none
  | cursor, acc, calls, fuel + 1 =>
      if cursor = "" then some (.ok (acc, calls))
      else
        match fetch calls cursor with
        | .error e => some (.error (wrapMsg ++ e))
        | .ok page =>
            userWalkAux fetch wrapMsg page.paginate.nextCursor (acc ++ page.items) (calls + 1) fuel

/-- `Merchant.ListPaymentHistory` after the first page decoded
successfully: accumulate its items, then run the (shadowed-variable) loop.
The pair carries the items and the total number of page fetches. -/
def Merchant.listPaymentHistoryModel (fetch : Nat → String → Except String (HistPage α))
    (fuel : Nat) : Option (Except String (List α × Nat)) :=
  match fetch 0 "" with
  | .error e => some (.error e)
  | .ok firstPage =>
      merchantWalkAux fetch "error paging payment history: "
        firstPage.paginate.nextCursor firstPage.items 1 fuel

/-- `Merchant.ListPayoutHistory`, same loop shape as the payment listing. -/
def Merchant.listPayoutHistoryModel (fetch : Nat → String → Except String (HistPage α))
    (fuel : Nat) : Option (Except String (List α × Nat)) :=
  match fetch 0 "" with
  | .error e => some (.error e)
  | .ok firstPage =>
      merchantWalkAux fetch "error paging payout history: "
        firstPage.paginate.nextCursor firstPage.items 1 fuel

/-- `Merchant.ListRecurringPayments`, same loop shape as the payment
listing. -/
def Merchant.listRecurringPaymentsModel (fetch : Nat → String → Except String (HistPage α))
    (fuel : Nat) : Option (Except String (List α × Nat)) :=
  match fetch 0 "" with
  | .error e => some (.error e)
  | .ok firstPage =>
      merchantWalkAux fetch "error paging recurring payments: "
        firstPage.paginate.nextCursor firstPage.items 1 fuel

/-- `User.ListOrderHistory` after the first page decoded successfully. -/
def User.listOrderHistoryModel (fetch : Nat → String → Except String (HistPage α))
    (fuel : Nat) : Option (Except String (List α × Nat)) :=
  match fetch 0 "" with
  | .error e => some (.error e)
  | .ok firstPage =>
      userWalkAux fetch "error paging orders history: "
        firstPage.paginate.nextCursor firstPage.items 1 fuel

/-! ## Webhook notification (`Update`) and `Merchant.VerifySign`

`json.Marshal` of the two signable anonymous structs is embedded
concretely: fields in declaration order, `nil` pointers as `null`, strings
with Go's default escaping (including the HTML escapes for `<`, `>`, `&`). -/

/-- Go `encoding/json` escaping of one character inside a string literal. -/
def goJSONEscapeChar (c : Char) : List Char :=
  if c = '"' then ['\\', '"']
  else if c = '\\' then ['\\', '\\']
  else if c = '\n' then ['\\', 'n']
  else if c = '\r' then ['\\', 'r']
  else if c = '\t' then ['\\', 't']
  else if c = '<' then ['\\', 'u', '0', '0', '3', 'c']
  else if c = '>' then ['\\', 'u', '0', '0', '3', 'e']
  else if c = '&' then ['\\', 'u', '0', '0', '2', '6']
  else if c.toNat < 32 then '\\' :: 'u' :: '0' :: '0' :: hexByte c.toNat
  else if c.toNat = 8232 then ['\\', 'u', '2', '0', '2', '8']
  else if c.toNat = 8233 then ['\\', 'u', '2', '0', '2', '9']
  else [c]

def goJSONString (s : String) : String :=
  "\"" ++ String.mk (flatMapL goJSONEscapeChar s.toList) ++ "\""

def jsonOptStr : Option String → String
  | none => "null"
  | some s => goJSONString s

def jsonOptBool : Option Bool → String
  | none => "null"
  | some true => "true"
  | some false => "false"

structure AutomaticConvert where
  toCurrency : Option String
  commission : Option String
  rate : Option String
  amount : Option String
  deriving DecidableEq

def AutomaticConvert.marshal (c : AutomaticConvert) : String :=
  "\x7b\"to_currency\":" ++ jsonOptStr c.toCurrency ++
  ",\"commission\":" ++ jsonOptStr c.commission ++
  ",\"rate\":" ++ jsonOptStr c.rate ++
  ",\"amount\":" ++ jsonOptStr c.amount ++ "\x7d"

def jsonOptConvert : Option AutomaticConvert → String
  | none => "null"
  | some c => c.marshal

/-- The webhook notification shape; every transport field is an optional
pointer in Go (here `Option`), the trailing `Sign` is a plain string.
`From` is `fromAddr` because `from` is reserved in Lean. -/
structure Update where
  type : Option String
  uuid : Option String
  orderID : Option String
  amount : Option String
  paymentAmount : Option String
  paymentAmountUSD : Option String
  merchantAmount : Option String
  commission : Option String
  isFinal : Option Bool
  status : Option String
  fromAddr : Option String
  walletAddressUUID : Option String
  network : Option String
  currency : Option String
  payerCurrency : Option String
  payerAmount : Option String
  additionalData : Option String
  convert : Option AutomaticConvert
  txID : Option String
  sign : String
  deriving DecidableEq

/-- `json.Marshal` of the payment-branch anonymous struct of `VerifySign`
(every notification field except `sign` and `payer_amount`, in declaration
order). -/
def Update.paymentSignable (u : Update) : String :=
  "\x7b\"type\":" ++ jsonOptStr u.type ++
  ",\"uuid\":" ++ jsonOptStr u.uuid ++
  ",\"order_id\":" ++ jsonOptStr u.orderID ++
  ",\"amount\":" ++ jsonOptStr u.amount ++
  ",\"payment_amount\":" ++ jsonOptStr u.paymentAmount ++
  ",\"payment_amount_usd\":" ++ jsonOptStr u.paymentAmountUSD ++
  ",\"merchant_amount\":" ++ jsonOptStr u.merchantAmount ++
  ",\"commission\":" ++ jsonOptStr u.commission ++
  ",\"is_final\":" ++ jsonOptBool u.isFinal ++
  ",\"status\":" ++ jsonOptStr u.status ++
  ",\"from\":" ++ jsonOptStr u.fromAddr ++
  ",\"wallet_address_uuid\":" ++ jsonOptStr u.walletAddressUUID ++
  ",\"network\":" ++ jsonOptStr u.network ++
  ",\"currency\":" ++ jsonOptStr u.currency ++
  ",\"payer_currency\":" ++ jsonOptStr u.payerCurrency ++
  ",\"additional_data\":" ++ jsonOptStr u.additionalData ++
  ",\"convert\":" ++ jsonOptConvert u.convert ++
  ",\"txid\":" ++ jsonOptStr u.txID ++ "\x7d"

/-- `json.Marshal` of the payout-branch anonymous struct of `VerifySign`
(the smaller payout field set, in declaration order). -/
def Update.payoutSignable (u : Update) : String :=
  "\x7b\"type\":" ++ jsonOptStr u.type ++
  ",\"uuid\":" ++ jsonOptStr u.uuid ++
  ",\"order_id\":" ++ jsonOptStr u.orderID ++
  ",\"amount\":" ++ jsonOptStr u.amount ++
  ",\"merchant_amount\":" ++ jsonOptStr u.merchantAmount ++
  ",\"commission\":" ++ jsonOptStr u.commission ++
  ",\"is_final\":" ++ jsonOptBool u.isFinal ++
  ",\"status\":" ++ jsonOptStr u.status ++
  ",\"txid\":" ++ jsonOptStr u.txID ++
  ",\"currency\":" ++ jsonOptStr u.currency ++
  ",\"network\":" ++ jsonOptStr u.network ++
  ",\"payer_currency\":" ++ jsonOptStr u.payerCurrency ++
  ",\"payer_amount\":" ++ jsonOptStr u.payerAmount ++ "\x7d"

/-! ## `crypto/subtle.ConstantTimeCompare` -/

def bxor8 (x y : Nat) : Nat := bxorAux 8 x y

def bor8 (x y : Nat) : Nat := borAux 8 x y

/-- The accumulation loop of `ConstantTimeCompare`: `v |= x[i] ^ y[i]`
over every index, with no early exit. -/
def ctAccum : List Nat → List Nat → Nat → Nat
  | [], _, v => v
  | _, [], v => v
  | x :: xs, y :: ys, v => ctAccum xs ys (bor8 v (bxor8 x y))

/-- `subtle.ConstantTimeByteEq`: `int((uint32(x^y) - 1) >> 31)`, with the
`uint32` subtraction wrapping. -/
def constantTimeByteEq (x y : Nat) : Nat :=
  ((bxor32 x y + 4294967296 - 1) % 4294967296) / 2147483648

/-- `subtle.ConstantTimeCompare`: 0 on length mismatch, else the byte
equality of the OR-accumulated XOR of all positions with 0. -/
def constantTimeCompare (x y : List Nat) : Nat :=
  if x.length ≠ y.length then 0
  else constantTimeByteEq (ctAccum x y 0) 0

/-- The same computation instrumented with the number of per-byte loop
iterations executed, the shallow model of its running time. -/
def ctAccumSteps : List Nat → List Nat → Nat → Nat × Nat
  | [], _, v => (v, 0)
  | _, [], v => (v, 0)
  | x :: xs, y :: ys, v =>
      let r := ctAccumSteps xs ys (bor8 v (bxor8 x y))
      (r.1, r.2 + 1)

def constantTimeCompareInstr (x y : List Nat) : Nat × Nat :=
  if x.length ≠ y.length then (0, 0)
  else
    let r := ctAccumSteps x y 0
    (constantTimeByteEq r.1 0, r.2 + 1)

/-! ## `Merchant.VerifySign`

The Go function begins with `switch *update.Type`, dereferencing the
optional pointer with no nil check; the embedding returns `none` for that
panic. In the payment branch the source compares the signatures twice
(inside the `case` and again after the `switch`); both comparisons are
kept. -/

def Merchant.verifySign (m : Merchant) (u : Update) : Option (Except String Unit) :=
  match u.type with
  | none => none
  | some t =>
      if t = "payment" ∨ t = "wallet" then
        match m.signPaymentPayload (strBytes u.paymentSignable) with
        | .error e => some (.error ("error generating payment signature: " ++ e))
        | .ok sign =>
            if constantTimeCompare (strBytes sign) (strBytes u.sign) = 0 then
              some (.error "signature mismatch")
            else if constantTimeCompare (strBytes sign) (strBytes u.sign) = 0 then
              some (.error "signature mismatch")
            else some (.ok ())
      else if t = "payout" then
        match m.signPayoutPayload (strBytes u.payoutSignable) with
        | .error e => some (.error ("error generating payment signature: " ++ e))
        | .ok sign =>
            if constantTimeCompare (strBytes sign) (strBytes u.sign) = 0 then
              some (.error "signature mismatch")
            else some (.ok ())
      else some (.error "unsupported type: cryptomus.Update")

/-- The §4.5 expected signature of a payment-category notification: the
payment-key digest of the payment-branch serialization. -/
def Merchant.expectedPaymentSign (m : Merchant) (u : Update) : String :=
  digestSignerSpec (strBytes u.paymentSignable) m.paymentAPIKey

/-! ## `User.CalculateConvert` / `User.CreateMarketOrder` request bodies -/

/-- The endpoint path constants are declared in a file of this repository
that is not under `src/`; their values are opaque tokens here and no claim
inspects them. -/
def urlCalculateConvert : String := "urlCalculateConvert"

def urlCreateMarketOrder : String := "urlCreateMarketOrder"

/-- The `Convert` request record (`from`, `to`, `from_amount`,
`to_amount`); `from`/`to` are renamed because `from` is reserved. -/
structure Convert where
  fromCur : String
  toCur : String
  fromAmount : String
  toAmount : String

structure MarketOrderRequest where
  fromCur : String
  toCur : String
  amount : String

/-- `User.CalculateConvert`, request-construction part: the source passes
an empty anonymous struct — not `request` — to `sendPaymentRequest`, and
`json.Marshal` of it produces the two-byte empty JSON object. -/
def User.calculateConvertSentRequest (u : User) (request : Convert) :
    Except String HttpRequest :=
  u.buildPaymentRequest "POST" urlCalculateConvert (strBytes "\x7b\x7d")

/-- `User.CreateMarketOrder`, request-construction part: same empty-struct
body as `CalculateConvert`. -/
def User.createMarketOrderSentRequest (u : User) (request : MarketOrderRequest) :
    Except String HttpRequest :=
  u.buildPaymentRequest "POST" urlCreateMarketOrder (strBytes "\x7b\x7d")

/-! ## Supporting lemmas -/

theorem flatMapL_length_two (f : α → List β) (h : ∀ a, (f a).length = 2) :
    ∀ l : List α, (flatMapL f l).length = 2 * l.length := by
  intro l
  induction l with
  | nil => rfl
  | cons a as ih =>
      simp [flatMapL, List.length_append, h a, ih, List.length_cons, Nat.mul_succ,
        Nat.add_comm]

theorem mem_flatMapL {f : α → List β} {c : β} :
    ∀ {l : List α}, c ∈ flatMapL f l → ∃ a ∈ l, c ∈ f a := by
  intro l
  induction l with
  | nil => intro h; cases h
  | cons a as ih =>
      intro h
      rcases List.mem_append.mp h with h' | h'
      · exact ⟨a, List.mem_cons_self a as, h'⟩
      · rcases ih h' with ⟨b, hb, hc⟩
        exact ⟨b, List.mem_cons_of_mem a hb, hc⟩

theorem getD_mem {γ : Type} :
    ∀ (l : List γ) (i : Nat) (d : γ), i < l.length → l.getD i d ∈ l
  | [], _, _, h => absurd h (by simp)
  | a :: l, 0, _, _ => List.mem_cons_self a l
  | a :: l, i + 1, d, h =>
      List.mem_cons_of_mem a (getD_mem l i d (Nat.lt_of_succ_lt_succ h))

theorem hexByte_mem (b : Nat) : ∀ c ∈ hexByte b, c ∈ hexDigitChars := by
  intro c hc
  have h16 : ∀ i : Nat, i < 16 → hexDigitChars.getD i '0' ∈ hexDigitChars := by
    intro i hi
    exact getD_mem hexDigitChars i '0' (by simpa [hexDigitChars] using hi)
  simp only [hexByte, List.mem_cons, List.not_mem_nil, or_false] at hc
  rcases hc with rfl | rfl
  · exact h16 _ (Nat.mod_lt _ (by norm_num))
  · exact h16 _ (Nat.mod_lt _ (by norm_num))

theorem hexEncode_chars (bs : List Nat) :
    ∀ c ∈ (hexEncode bs).toList, c ∈ hexDigitChars := by
  intro c hc
  have : c ∈ flatMapL hexByte bs := hc
  rcases mem_flatMapL this with ⟨b, _, hb⟩
  exact hexByte_mem b c hb

theorem md5Sum_length (msg : List Nat) : (md5Sum msg).length = 16 := by
  simp [md5Sum, wordLE]

theorem digestSignerSpec_length (b : List Nat) (k : String) :
    (digestSignerSpec b k).length = 32 := by
  show (flatMapL hexByte (md5Sum (strBytes (base64StdEncode b ++ k)))).length = 32
  rw [flatMapL_length_two hexByte (fun _ => rfl), md5Sum_length]

/-! ## Claims -/

/-- C3: for every byte sequence and every persona, the four payload
signers return exactly the §4.1 digest — the lowercase hexadecimal
rendering (32 characters over `0-9a-f`) of the MD5 digest of the base64
encoding of the bytes with the secret key concatenated as a suffix — and
never return an error. -/
theorem c3_digest_signer (m : Merchant) (u : User) (b : List Nat) :
    m.signPaymentPayload b = Except.ok (digestSignerSpec b m.paymentAPIKey) ∧
    m.signPayoutPayload b = Except.ok (digestSignerSpec b m.payoutAPIKey) ∧
    u.signPaymentPayload b = Except.ok (digestSignerSpec b u.paymentAPIKey) ∧
    u.signPayoutPayload b = Except.ok (digestSignerSpec b u.payoutAPIKey) ∧
    (digestSignerSpec b m.paymentAPIKey).length = 32 ∧
    (∀ c ∈ (digestSignerSpec b m.paymentAPIKey).toList, c ∈ hexDigitChars) :=
  ⟨rfl, rfl, rfl, rfl, digestSignerSpec_length b m.paymentAPIKey,
   hexEncode_chars (md5Sum (strBytes (base64StdEncode b ++ m.paymentAPIKey)))⟩

/-- C6: every authenticated request carries `Content-Type:
application/json`, the persona identity header (`merchant` UUID for
Merchant, `userId` for User) and a `sign` header holding the digest of the
serialized body under the key selected by the operation's context —
payment-context sends sign with the payment key, payout-context sends with
the payout key — for every input. -/
theorem c6_envelope_headers (m : Merchant) (u : User) (method url : String)
    (jsonData : List Nat) :
    m.buildPaymentRequest method url jsonData =
      Except.ok ⟨method, url,
        [("Content-Type", "application/json"), ("merchant", m.merchantUUID),
         ("sign", digestSignerSpec jsonData m.paymentAPIKey)], jsonData⟩ ∧
    m.buildPayoutRequest method url jsonData =
      Except.ok ⟨method, url,
        [("Content-Type", "application/json"), ("merchant", m.merchantUUID),
         ("sign", digestSignerSpec jsonData m.payoutAPIKey)], jsonData⟩ ∧
    u.buildPaymentRequest method url jsonData =
      Except.ok ⟨method, url,
        [("Content-Type", "application/json"), ("userId", u.userID),
         ("sign", digestSignerSpec jsonData u.paymentAPIKey)], jsonData⟩ ∧
    u.buildPayoutRequest method url jsonData =
      Except.ok ⟨method, url,
        [("Content-Type", "application/json"), ("userId", u.userID),
         ("sign", digestSignerSpec jsonData u.payoutAPIKey)], jsonData⟩ :=
  ⟨rfl, rfl, rfl, rfl⟩

/-- C9: `Merchant.VerifySign` opens with `switch *update.Type` and
dereferences the optional `Type` pointer with no nil check, so every
notification whose `Type` is nil makes it panic (modelled as `none`)
instead of returning an error. -/
theorem c9_verify_sign_nil_type_panics (m : Merchant) (u : Update)
    (h : u.type = none) : m.verifySign u = none := by
  unfold Merchant.verifySign
  rw [h]

/-- Witness for C9 at a concrete all-nil notification. -/
theorem c9_verify_sign_nil_type_panics_witness :
    Merchant.verifySign ⟨"mu", "payKey", "outKey"⟩
      ⟨none, none, none, none, none, none, none, none, none, none, none,
       none, none, none, none, none, none, none, none, "s"⟩ = none :=
  c9_verify_sign_nil_type_panics ⟨"mu", "payKey", "outKey"⟩
    ⟨none, none, none, none, none, none, none, none, none, none, none,
     none, none, none, none, none, none, none, none, "s"⟩ rfl

/-- C10: `User.CalculateConvert` and `User.CreateMarketOrder` build a
request that does not depend on their request argument: any two argument
values produce the same outbound request, whose body is the two bytes of
the empty JSON object, so the caller's conversion parameters are never
sent. -/
theorem c10_empty_body_requests (u : User) (r1 r2 : Convert)
    (s1 s2 : MarketOrderRequest) :
    u.calculateConvertSentRequest r1 = u.calculateConvertSentRequest r2 ∧
    u.createMarketOrderSentRequest s1 = u.createMarketOrderSentRequest s2 ∧
    (∀ req, u.calculateConvertSentRequest r1 = Except.ok req → req.body = [123, 125]) ∧
    (∀ req, u.createMarketOrderSentRequest s1 = Except.ok req → req.body = [123, 125]) := by
  refine ⟨rfl, rfl, ?_, ?_⟩ <;>
    · intro req h
      cases h
      rfl

/-! ## C1 / C7: the pagination scenario of §8 -/

/-- Page 1 of the spec's pagination test: two items, next cursor `"abc"`. -/
def c1Page1 : HistPage Nat := ⟨[1, 2], ⟨2, true, "abc", "", 15⟩⟩

/-- Page 2: one item, empty next cursor. -/
def c1Page2 : HistPage Nat := ⟨[3], ⟨1, false, "", "abc", 15⟩⟩

/-- The provider in the scenario, keyed on the cursor alone: the base
request yields page 1 and cursor `"abc"` yields page 2, on every call. -/
def c1ServerFetch : Nat → String → Except String (HistPage Nat) :=
  fun _ cursor =>
    if cursor = "" then .ok c1Page1
    else if cursor = "abc" then .ok c1Page2
    else .error "unexpected cursor"

/-- The same scenario keyed on the call sequence: only call 0 with no
cursor and call 1 with cursor `"abc"` are answered, so an operation that
succeeds against this oracle has made exactly those two fetches in that
order. -/
def c1SeqFetch : Nat → String → Except String (HistPage Nat) :=
  fun i cursor =>
    if i = 0 ∧ cursor = "" then .ok c1Page1
    else if i = 1 ∧ cursor = "abc" then .ok c1Page2
    else .error "unexpected call"

theorem merchantWalkAux_c1_none (w : String) :
    ∀ (fuel : Nat) (acc : List Nat) (calls : Nat),
      merchantWalkAux c1ServerFetch w "abc" acc calls fuel = none := by
  intro fuel
  induction fuel with
  | zero =>
      intro acc calls
      simp [merchantWalkAux]
  | succ n ih =>
      intro acc calls
      simp only [merchantWalkAux, c1ServerFetch]
      norm_num
      exact ih _ _

/-- C1: in the two-page scenario, the three Merchant history listings
never terminate — the loop variable is shadowed by `:=`, so every
iteration refetches with cursor `"abc"` and the guard never sees the empty
cursor (`none` for every fuel bound) — while `User.ListOrderHistory`
terminates with the three items in order after exactly two fetches, the
second with cursor `"abc"`. -/
theorem c1_pagination_walk :
    (∀ fuel, Merchant.listPaymentHistoryModel c1ServerFetch fuel = none) ∧
    (∀ fuel, Merchant.listPayoutHistoryModel c1ServerFetch fuel = none) ∧
    (∀ fuel, Merchant.listRecurringPaymentsModel c1ServerFetch fuel = none) ∧
    User.listOrderHistoryModel c1SeqFetch 1 = some (.ok ([1, 2, 3], 2)) := by
  refine ⟨fun fuel => ?_, fun fuel => ?_, fun fuel => ?_, rfl⟩ <;>
    exact merchantWalkAux_c1_none _ fuel _ _

/-- C7: whenever a page fetch inside the walk fails, both loop shapes
return exactly the wrapped error — independently of the items accumulated
so far, which are discarded — and so do the full listing operations when
their second fetch fails. -/
theorem c7_pagination_abort {α : Type} :
    (∀ (fetch : Nat → String → Except String (HistPage α)) (w cursor : String)
        (acc : List α) (calls : Nat) (e : String) (fuel : Nat),
        cursor ≠ "" → fetch calls cursor = .error e →
        merchantWalkAux fetch w cursor acc calls (fuel + 1) =
          some (.error (w ++ e))) ∧
    (∀ (fetch : Nat → String → Except String (HistPage α)) (w cursor : String)
        (acc : List α) (calls : Nat) (e : String) (fuel : Nat),
        cursor ≠ "" → fetch calls cursor = .error e →
        userWalkAux fetch w cursor acc calls (fuel + 1) =
          some (.error (w ++ e))) ∧
    (∀ (fetch : Nat → String → Except String (HistPage α)) (fp : HistPage α)
        (e : String) (fuel : Nat),
        fetch 0 "" = .ok fp → fp.paginate.nextCursor ≠ "" →
        fetch 1 fp.paginate.nextCursor = .error e →
        Merchant.listPaymentHistoryModel fetch (fuel + 1) =
          some (.error ("error paging payment history: " ++ e)) ∧
        User.listOrderHistoryModel fetch (fuel + 1) =
          some (.error ("error paging orders history: " ++ e))) := by
  refine ⟨?_, ?_, ?_⟩
  · intro fetch w cursor acc calls e fuel hc hf
    unfold merchantWalkAux
    rw [if_neg hc, hf]
  · intro fetch w cursor acc calls e fuel hc hf
    unfold userWalkAux
    rw [if_neg hc, hf]
  · intro fetch fp e fuel h0 hc hf
    constructor
    · unfold Merchant.listPaymentHistoryModel
      rw [h0]
      unfold merchantWalkAux
      rw [if_neg hc, hf]
    · unfold User.listOrderHistoryModel
      rw [h0]
      unfold userWalkAux
      rw [if_neg hc, hf]

/-- Witness for C7 at a concrete failing oracle: the walk drops the
already-accumulated `[7, 8]` and surfaces only the wrapped error. -/
theorem c7_pagination_abort_witness :
    merchantWalkAux (fun _ _ => (.error "boom" : Except String (HistPage Nat)))
      "error paging payment history: " "abc" [7, 8] 1 1 =
      some (.error "error paging payment history: boom") ∧
    userWalkAux (fun _ _ => (.error "boom" : Except String (HistPage Nat)))
      "error paging orders history: " "abc" [7, 8] 1 1 =
      some (.error "error paging orders history: boom") :=
  ⟨(c7_pagination_abort (α := Nat)).1 (fun _ _ => .error "boom")
      "error paging payment history: " "abc" [7, 8] 1 "boom" 0 (by decide) rfl,
   (c7_pagination_abort (α := Nat)).2.1 (fun _ _ => .error "boom")
      "error paging orders history: " "abc" [7, 8] 1 "boom" 0 (by decide) rfl⟩

/-! ## C2 / C5: decoder success criterion and error-aggregation order -/

/-- The collected-error list of `GetRecurringPaymentInformation` /
`CancelRecurringPayment` and kin as the source actually orders it: flat
message, then the generic error string, then the field lists. -/
def amendedRecurringOrder (resp : RecordIDEnvelope α) : List String :=
  (if resp.message ≠ "" then [resp.message] else []) ++
  (if resp.error ≠ "" then [resp.error] else []) ++
  resp.errors.uuid ++ resp.errors.orderID

/-- The collected-error list of `User.CreateLimitOrder` as the source
orders it: flat message, generic error string, then the four field lists. -/
def amendedLimitOrderOrder (resp : LimitOrderEnvelope α) : List String :=
  (if resp.message ≠ "" then [resp.message] else []) ++
  (if resp.error ≠ "" then [resp.error] else []) ++
  resp.errors.fromMsgs ++ resp.errors.toMsgs ++
  resp.errors.amountMsgs ++ resp.errors.priceMsgs

/-- Modelled from the claim's words (C5): flat message first, then each
field's validation messages in the call's fixed field order, then the
generic error string last. -/
def claimedRecurringOrder (resp : RecordIDEnvelope α) : List String :=
  (if resp.message ≠ "" then [resp.message] else []) ++
  resp.errors.uuid ++ resp.errors.orderID ++
  (if resp.error ≠ "" then [resp.error] else [])

/-- C2, counterexample: on `Merchant.ListPaymentHistory`'s decoder a
populated flat message together with HTTP 200 and state 0 yields success —
the carriers are only collected when status or state already indicate
failure — contradicting "a populated message or error carrier yields
failure even when the HTTP status is OK and state is 0". -/
theorem c2_success_criterion_counterexample :
    Merchant.listPaymentHistoryFirstDecode 200 "200 OK"
      ({ state := 0, result := 42, message := "Payment not found",
         errors := ⟨[], []⟩, code := 0, error := "" } : HistoryEnvelope Nat) =
      Except.ok 42 ∧ "Payment not found" ≠ "" :=
  ⟨rfl, by decide⟩

/-- C2, amended: success requires HTTP 200 and state 0 everywhere, but the
role of the carriers differs by call site — operations that collect them
unconditionally (here `CancelLimitOrder`, `GetRecurringPaymentInformation`)
additionally require every carrier to be empty, while the history-listing
first-page decoders collect carriers only when status or state already
fail, so they succeed exactly when the status is OK and the state is 0,
even with populated carriers. -/
theorem c2_success_criterion_amended {α : Type} (sc : Nat) (stx : String)
    (r1 : SimpleEnvelope α) (r2 : RecordIDEnvelope α) (r3 : HistoryEnvelope α) :
    ((∃ v, User.cancelLimitOrderDecode sc stx r1 = Except.ok v) ↔
      (sc = 200 ∧ r1.state = 0 ∧ r1.message = "" ∧ r1.error = "")) ∧
    ((∃ v, Merchant.getRecurringPaymentInformationDecode sc stx r2 = Except.ok v) ↔
      (sc = 200 ∧ r2.state = 0 ∧ r2.message = "" ∧ r2.error = "" ∧
       r2.errors.uuid = [] ∧ r2.errors.orderID = [])) ∧
    ((∃ v, Merchant.listPaymentHistoryFirstDecode sc stx r3 = Except.ok v) ↔
      (sc = 200 ∧ r3.state = 0)) := by
  refine ⟨?_, ?_, ?_⟩
  · by_cases h200 : sc = 200 <;> by_cases hst : r1.state = 0 <;>
      by_cases hm : r1.message = "" <;> by_cases he : r1.error = "" <;>
      simp [User.cancelLimitOrderDecode, h200, hst, hm, he]
  · by_cases h200 : sc = 200 <;> by_cases hst : r2.state = 0 <;>
      by_cases hm : r2.message = "" <;> by_cases he : r2.error = "" <;>
      by_cases hu : r2.errors.uuid = [] <;> by_cases ho : r2.errors.orderID = [] <;>
      simp [Merchant.getRecurringPaymentInformationDecode, h200, hst, hm, he, hu, ho]
  · by_cases h200 : sc = 200 <;> by_cases hst : r3.state = 0 <;>
      simp [Merchant.listPaymentHistoryFirstDecode, h200, hst]

/-- C5, counterexample: `Merchant.GetRecurringPaymentInformation` appends
the generic error string right after the flat message and BEFORE the
field-keyed validation lists, so its aggregate is `m; e; u` while the
claimed order (message, field lists, generic error last) would be
`m; u; e`. -/
theorem c5_order_counterexample :
    Merchant.getRecurringPaymentInformationDecode 422 "422 Unprocessable Entity"
      ({ state := 1, result := 0, message := "m", errors := ⟨["u"], []⟩,
         code := 422, error := "e" } : RecordIDEnvelope Nat) =
      Except.error
        "error getting recurring payment information with status 422 Unprocessable Entity: m; e; u" ∧
    String.intercalate "; "
      (claimedRecurringOrder
        ({ state := 1, result := 0, message := "m", errors := ⟨["u"], []⟩,
           code := 422, error := "e" } : RecordIDEnvelope Nat)) = "m; u; e" ∧
    "m; e; u" ≠ "m; u; e" :=
  ⟨rfl, rfl, by decide⟩

/-- C5, amended: on failure the aggregated message is the HTTP status text
followed by the collected signals joined with `"; "`, where the cited
operations collect in the order: flat message first, then the generic
error string, then each field's validation lists in the call's fixed field
order (the generic error string is not last). -/
theorem c5_aggregation_amended {α : Type} (sc : Nat) (stx : String)
    (r2 : RecordIDEnvelope α) (r4 : LimitOrderEnvelope α)
    (h2 : sc ≠ 200 ∨ r2.state ≠ 0 ∨ amendedRecurringOrder r2 ≠ [])
    (h4 : sc ≠ 200 ∨ r4.state ≠ 0 ∨ amendedLimitOrderOrder r4 ≠ []) :
    Merchant.getRecurringPaymentInformationDecode sc stx r2 =
      Except.error ("error getting recurring payment information with status " ++
        stx ++ ": " ++ String.intercalate "; " (amendedRecurringOrder r2)) ∧
    User.createLimitOrderDecode sc stx r4 =
      Except.error ("error with status " ++ stx ++ ": " ++
        String.intercalate "; " (amendedLimitOrderOrder r4)) := by
  constructor
  · have hshape : Merchant.getRecurringPaymentInformationDecode sc stx r2 =
        if sc ≠ 200 ∨ r2.state ≠ 0 ∨ amendedRecurringOrder r2 ≠ [] then
          Except.error ("error getting recurring payment information with status " ++
            stx ++ ": " ++ String.intercalate "; " (amendedRecurringOrder r2))
        else Except.ok r2.result := rfl
    rw [hshape, if_pos h2]
  · have hshape : User.createLimitOrderDecode sc stx r4 =
        if sc ≠ 200 ∨ r4.state ≠ 0 ∨ amendedLimitOrderOrder r4 ≠ [] then
          Except.error ("error with status " ++ stx ++ ": " ++
            String.intercalate "; " (amendedLimitOrderOrder r4))
        else Except.ok r4.result := rfl
    rw [hshape, if_pos h4]

/-- Witness for C5's amended claim at concrete failing envelopes. -/
theorem c5_aggregation_amended_witness :
    Merchant.getRecurringPaymentInformationDecode 422 "422 Unprocessable Entity"
      ({ state := 1, result := 0, message := "m", errors := ⟨["u1"], ["o1"]⟩,
         code := 422, error := "e" } : RecordIDEnvelope Nat) =
      Except.error
        "error getting recurring payment information with status 422 Unprocessable Entity: m; e; u1; o1" ∧
    User.createLimitOrderDecode 422 "422 Unprocessable Entity"
      ({ state := 1, result := 0, message := "m", errors := ⟨["f"], ["t"], ["a"], ["p"]⟩,
         code := 422, error := "e" } : LimitOrderEnvelope Nat) =
      Except.error "error with status 422 Unprocessable Entity: m; e; f; t; a; p" :=
  c5_aggregation_amended 422 "422 Unprocessable Entity"
    ({ state := 1, result := 0, message := "m", errors := ⟨["u1"], ["o1"]⟩,
       code := 422, error := "e" } : RecordIDEnvelope Nat)
    ({ state := 1, result := 0, message := "m", errors := ⟨["f"], ["t"], ["a"], ["p"]⟩,
       code := 422, error := "e" } : LimitOrderEnvelope Nat)
    (by decide) (by decide)

/-! ## C8: the comparison primitive of `VerifySign` -/

/-- The §4.5 expected signature of a payout-category notification. -/
def Merchant.expectedPayoutSign (m : Merchant) (u : Update) : String :=
  digestSignerSpec (strBytes u.payoutSignable) m.payoutAPIKey

theorem ctAccumSteps_fst :
    ∀ (x y : List Nat) (v : Nat), (ctAccumSteps x y v).1 = ctAccum x y v
  | [], y, v => by cases y <;> rfl
  | _ :: _, [], _ => rfl
  | x :: xs, y :: ys, v => ctAccumSteps_fst xs ys (bor8 v (bxor8 x y))

theorem ctAccumSteps_snd :
    ∀ (x y : List Nat) (v : Nat), (ctAccumSteps x y v).2 = min x.length y.length
  | [], y, _ => by cases y <;> simp [ctAccumSteps]
  | _ :: _, [], _ => by simp [ctAccumSteps]
  | x :: xs, y :: ys, v => by
      simp [ctAccumSteps, ctAccumSteps_snd xs ys (bor8 v (bxor8 x y)),
        Nat.succ_min_succ]

/-- C8: `Merchant.VerifySign` decides acceptance exactly by
`subtle.ConstantTimeCompare` (for both notification categories), and that
comparison performs one loop iteration per byte position with no early
exit: its instrumented step count is a function of the two lengths alone,
so it cannot depend on the position of the first mismatching byte. -/
theorem c8_constant_time_comparison :
    (∀ x y : List Nat, (constantTimeCompareInstr x y).1 = constantTimeCompare x y) ∧
    (∀ x y : List Nat, (constantTimeCompareInstr x y).2 =
      if x.length ≠ y.length then 0 else x.length + 1) ∧
    (∀ x y x' y' : List Nat, x.length = x'.length → y.length = y'.length →
      (constantTimeCompareInstr x y).2 = (constantTimeCompareInstr x' y').2) ∧
    (∀ (m : Merchant) (u : Update), u.type = some "payment" →
      (m.verifySign u = some (Except.ok ()) ↔
        constantTimeCompare (strBytes (m.expectedPaymentSign u)) (strBytes u.sign) ≠ 0)) ∧
    (∀ (m : Merchant) (u : Update), u.type = some "payout" →
      (m.verifySign u = some (Except.ok ()) ↔
        constantTimeCompare (strBytes (m.expectedPayoutSign u)) (strBytes u.sign) ≠ 0)) := by
  have hsnd : ∀ x y : List Nat, (constantTimeCompareInstr x y).2 =
      if x.length ≠ y.length then 0 else x.length + 1 := by
    intro x y
    unfold constantTimeCompareInstr
    by_cases h : x.length = y.length
    · simp [h, ctAccumSteps_snd]
    · simp [h]
  refine ⟨?_, hsnd, ?_, ?_, ?_⟩
  · intro x y
    unfold constantTimeCompareInstr constantTimeCompare
    by_cases h : x.length = y.length <;> simp [h, ctAccumSteps_fst]
  · intro x y x' y' hx hy
    rw [hsnd, hsnd, hx, hy]
  · intro m u h
    have hred : m.verifySign u =
        (if constantTimeCompare (strBytes (m.expectedPaymentSign u)) (strBytes u.sign) = 0
         then some (Except.error "signature mismatch")
         else if constantTimeCompare (strBytes (m.expectedPaymentSign u)) (strBytes u.sign) = 0
         then some (Except.error "signature mismatch")
         else some (Except.ok ())) := by
      unfold Merchant.verifySign
      rw [h]
      rfl
    rw [hred]
    by_cases hct :
        constantTimeCompare (strBytes (m.expectedPaymentSign u)) (strBytes u.sign) = 0 <;>
      simp [hct]
  · intro m u h
    have hred : m.verifySign u =
        (if constantTimeCompare (strBytes (m.expectedPayoutSign u)) (strBytes u.sign) = 0
         then some (Except.error "signature mismatch")
         else some (Except.ok ())) := by
      unfold Merchant.verifySign
      rw [h]
      rfl
    rw [hred]
    by_cases hct :
        constantTimeCompare (strBytes (m.expectedPayoutSign u)) (strBytes u.sign) = 0 <;>
      simp [hct]

/-- Witness for C8: equal-length inputs with different first-mismatch
positions cost the same number of steps, and the acceptance of a concrete
payment notification is the comparison's verdict. -/
theorem c8_constant_time_comparison_witness :
    (constantTimeCompareInstr [0, 1, 2] [9, 1, 2]).2 =
      (constantTimeCompareInstr [0, 1, 2] [0, 1, 9]).2 ∧
    (Merchant.verifySign ⟨"mu", "pk", "ok2"⟩
        ⟨some "payment", none, none, none, none, none, none, none, none, none,
         none, none, none, none, none, none, none, none, none, "sig"⟩ =
        some (Except.ok ()) ↔
      constantTimeCompare
        (strBytes (Merchant.expectedPaymentSign ⟨"mu", "pk", "ok2"⟩
          ⟨some "payment", none, none, none, none, none, none, none, none, none,
           none, none, none, none, none, none, none, none, none, "sig"⟩))
        (strBytes "sig") ≠ 0) :=
  ⟨c8_constant_time_comparison.2.2.1 [0, 1, 2] [9, 1, 2] [0, 1, 2] [0, 1, 9] rfl rfl,
   c8_constant_time_comparison.2.2.2.1 ⟨"mu", "pk", "ok2"⟩
     ⟨some "payment", none, none, none, none, none, none, none, none, none,
      none, none, none, none, none, none, none, none, none, "sig"⟩ rfl⟩

/-! ## C4: webhook signature verification -/

theorem bxorAux_self : ∀ (n a : Nat), bxorAux n a a = 0 := by
  intro n
  induction n with
  | zero => intro a; rfl
  | succ k ih =>
      intro a
      simp only [bxorAux, ih, Nat.mul_zero, Nat.add_zero]
      omega

theorem ctAccum_self : ∀ x : List Nat, ctAccum x x 0 = 0 := by
  intro x
  induction x with
  | nil => rfl
  | cons a as ih =>
      show ctAccum as as (bor8 0 (bxor8 a a)) = 0
      rw [show bxor8 a a = 0 from bxorAux_self 8 a]
      exact ih

/-- `ConstantTimeCompare` accepts a byte sequence against itself. -/
theorem constantTimeCompare_self (x : List Nat) : constantTimeCompare x x = 1 := by
  unfold constantTimeCompare
  rw [if_neg (by simp), ctAccum_self]
  rfl

/-- The concrete merchant of the §8 webhook test. -/
def c4M : Merchant := ⟨"8b03", "k", "x"⟩

/-- A payment notification with every signed field populated and the
signature still unset. -/
def c4Base : Update :=
  { type := some "payment", uuid := some "u", orderID := some "o",
    amount := some "1", paymentAmount := some "2", paymentAmountUSD := some "3",
    merchantAmount := some "4", commission := some "5", isFinal := some true,
    status := some "paid", fromAddr := some "f", walletAddressUUID := some "w",
    network := some "n", currency := some "c", payerCurrency := some "pc",
    payerAmount := some "7", additionalData := some "a", convert := none,
    txID := some "t", sign := "" }

/-- `c4Base` carrying its own §4.5 signature under the payment key
(the hex literal is `expectedPaymentSign c4M c4Base`, proved in the C4
witness). -/
def c4U : Update := { c4Base with sign := "cc1d4c49d7bf15b0276c80720a6aabb0" }

set_option maxHeartbeats 4000000 in
/-- Mutating `type` after signing `c4U` breaks verification. -/
theorem c4_mutated_type :
    Merchant.verifySign c4M { c4U with type := some "wallet" } =
      some (Except.error "signature mismatch") := by
  rfl

set_option maxHeartbeats 4000000 in
/-- Mutating `uuid` after signing `c4U` breaks verification. -/
theorem c4_mutated_uuid :
    Merchant.verifySign c4M { c4U with uuid := some "z" } =
      some (Except.error "signature mismatch") := by
  rfl

set_option maxHeartbeats 4000000 in
/-- Mutating `orderID` after signing `c4U` breaks verification. -/
theorem c4_mutated_orderID :
    Merchant.verifySign c4M { c4U with orderID := some "z" } =
      some (Except.error "signature mismatch") := by
  rfl

set_option maxHeartbeats 4000000 in
/-- Mutating `amount` after signing `c4U` breaks verification. -/
theorem c4_mutated_amount :
    Merchant.verifySign c4M { c4U with amount := some "z" } =
      some (Except.error "signature mismatch") := by
  rfl

set_option maxHeartbeats 4000000 in
/-- Mutating `paymentAmount` after signing `c4U` breaks verification. -/
theorem c4_mutated_paymentAmount :
    Merchant.verifySign c4M { c4U with paymentAmount := some "z" } =
      some (Except.error "signature mismatch") := by
  rfl

set_option maxHeartbeats 4000000 in
/-- Mutating `paymentAmountUSD` after signing `c4U` breaks verification. -/
theorem c4_mutated_paymentAmountUSD :
    Merchant.verifySign c4M { c4U with paymentAmountUSD := some "z" } =
      some (Except.error "signature mismatch") := by
  rfl

set_option maxHeartbeats 4000000 in
/-- Mutating `merchantAmount` after signing `c4U` breaks verification. -/
theorem c4_mutated_merchantAmount :
    Merchant.verifySign c4M { c4U with merchantAmount := some "z" } =
      some (Except.error "signature mismatch") := by
  rfl

set_option maxHeartbeats 4000000 in
/-- Mutating `commission` after signing `c4U` breaks verification. -/
theorem c4_mutated_commission :
    Merchant.verifySign c4M { c4U with commission := some "z" } =
      some (Except.error "signature mismatch") := by
  rfl

set_option maxHeartbeats 4000000 in
/-- Mutating `isFinal` after signing `c4U` breaks verification. -/
theorem c4_mutated_isFinal :
    Merchant.verifySign c4M { c4U with isFinal := some false } =
      some (Except.error "signature mismatch") := by
  rfl

set_option maxHeartbeats 4000000 in
/-- Mutating `status` after signing `c4U` breaks verification. -/
theorem c4_mutated_status :
    Merchant.verifySign c4M { c4U with status := some "z" } =
      some (Except.error "signature mismatch") := by
  rfl

set_option maxHeartbeats 4000000 in
/-- Mutating `fromAddr` after signing `c4U` breaks verification. -/
theorem c4_mutated_fromAddr :
    Merchant.verifySign c4M { c4U with fromAddr := some "z" } =
      some (Except.error "signature mismatch") := by
  rfl

set_option maxHeartbeats 4000000 in
/-- Mutating `walletAddressUUID` after signing `c4U` breaks verification. -/
theorem c4_mutated_walletAddressUUID :
    Merchant.verifySign c4M { c4U with walletAddressUUID := some "z" } =
      some (Except.error "signature mismatch") := by
  rfl

set_option maxHeartbeats 4000000 in
/-- Mutating `network` after signing `c4U` breaks verification. -/
theorem c4_mutated_network :
    Merchant.verifySign c4M { c4U with network := some "z" } =
      some (Except.error "signature mismatch") := by
  rfl

set_option maxHeartbeats 4000000 in
/-- Mutating `currency` after signing `c4U` breaks verification. -/
theorem c4_mutated_currency :
    Merchant.verifySign c4M { c4U with currency := some "z" } =
      some (Except.error "signature mismatch") := by
  rfl

set_option maxHeartbeats 4000000 in
/-- Mutating `payerCurrency` after signing `c4U` breaks verification. -/
theorem c4_mutated_payerCurrency :
    Merchant.verifySign c4M { c4U with payerCurrency := some "z" } =
      some (Except.error "signature mismatch") := by
  rfl

set_option maxHeartbeats 4000000 in
/-- Mutating `additionalData` after signing `c4U` breaks verification. -/
theorem c4_mutated_additionalData :
    Merchant.verifySign c4M { c4U with additionalData := some "z" } =
      some (Except.error "signature mismatch") := by
  rfl

set_option maxHeartbeats 4000000 in
/-- Mutating `convert` after signing `c4U` breaks verification. -/
theorem c4_mutated_convert :
    Merchant.verifySign c4M { c4U with convert := some ⟨some "q", none, none, none⟩ } =
      some (Except.error "signature mismatch") := by
  rfl

set_option maxHeartbeats 4000000 in
/-- Mutating `txID` after signing `c4U` breaks verification. -/
theorem c4_mutated_txID :
    Merchant.verifySign c4M { c4U with txID := some "z" } =
      some (Except.error "signature mismatch") := by
  rfl

/-- C4: a payment-category notification whose `sign` equals the payment-key
digest of the serialization of the other signed fields verifies
successfully (first conjunct, for every notification); and mutating any
one of the 18 signed fields of the correctly-signed concrete notification
`c4U` after the signature was computed makes `VerifySign` fail with a
signature mismatch (remaining conjuncts, one per signed field). -/
theorem c4_webhook_signature_verification :
    (∀ (m : Merchant) (u : Update) (t : String), u.type = some t →
        t = "payment" ∨ t = "wallet" → u.sign = m.expectedPaymentSign u →
        m.verifySign u = some (Except.ok ())) ∧
    Merchant.verifySign c4M { c4U with type := some "wallet" } =
      some (Except.error "signature mismatch") ∧
    Merchant.verifySign c4M { c4U with uuid := some "z" } =
      some (Except.error "signature mismatch") ∧
    Merchant.verifySign c4M { c4U with orderID := some "z" } =
      some (Except.error "signature mismatch") ∧
    Merchant.verifySign c4M { c4U with amount := some "z" } =
      some (Except.error "signature mismatch") ∧
    Merchant.verifySign c4M { c4U with paymentAmount := some "z" } =
      some (Except.error "signature mismatch") ∧
    Merchant.verifySign c4M { c4U with paymentAmountUSD := some "z" } =
      some (Except.error "signature mismatch") ∧
    Merchant.verifySign c4M { c4U with merchantAmount := some "z" } =
      some (Except.error "signature mismatch") ∧
    Merchant.verifySign c4M { c4U with commission := some "z" } =
      some (Except.error "signature mismatch") ∧
    Merchant.verifySign c4M { c4U with isFinal := some false } =
      some (Except.error "signature mismatch") ∧
    Merchant.verifySign c4M { c4U with status := some "z" } =
      some (Except.error "signature mismatch") ∧
    Merchant.verifySign c4M { c4U with fromAddr := some "z" } =
      some (Except.error "signature mismatch") ∧
    Merchant.verifySign c4M { c4U with walletAddressUUID := some "z" } =
      some (Except.error "signature mismatch") ∧
    Merchant.verifySign c4M { c4U with network := some "z" } =
      some (Except.error "signature mismatch") ∧
    Merchant.verifySign c4M { c4U with currency := some "z" } =
      some (Except.error "signature mismatch") ∧
    Merchant.verifySign c4M { c4U with payerCurrency := some "z" } =
      some (Except.error "signature mismatch") ∧
    Merchant.verifySign c4M { c4U with additionalData := some "z" } =
      some (Except.error "signature mismatch") ∧
    Merchant.verifySign c4M { c4U with convert := some ⟨some "q", none, none, none⟩ } =
      some (Except.error "signature mismatch") ∧
    Merchant.verifySign c4M { c4U with txID := some "z" } =
      some (Except.error "signature mismatch") := by
  refine ⟨?_, c4_mutated_type, c4_mutated_uuid, c4_mutated_orderID, c4_mutated_amount, c4_mutated_paymentAmount, c4_mutated_paymentAmountUSD, c4_mutated_merchantAmount, c4_mutated_commission, c4_mutated_isFinal, c4_mutated_status, c4_mutated_fromAddr, c4_mutated_walletAddressUUID, c4_mutated_network, c4_mutated_currency, c4_mutated_payerCurrency, c4_mutated_additionalData, c4_mutated_convert, c4_mutated_txID⟩
  intro m u t ht hcat hsig
  rcases hcat with rfl | rfl
  · have hred : m.verifySign u =
        (if constantTimeCompare (strBytes (m.expectedPaymentSign u)) (strBytes u.sign) = 0
         then some (Except.error "signature mismatch")
         else if constantTimeCompare (strBytes (m.expectedPaymentSign u)) (strBytes u.sign) = 0
         then some (Except.error "signature mismatch")
         else some (Except.ok ())) := by
      unfold Merchant.verifySign
      rw [ht]
      rfl
    rw [hred, hsig, constantTimeCompare_self]
    norm_num
  · have hred : m.verifySign u =
        (if constantTimeCompare (strBytes (m.expectedPaymentSign u)) (strBytes u.sign) = 0
         then some (Except.error "signature mismatch")
         else if constantTimeCompare (strBytes (m.expectedPaymentSign u)) (strBytes u.sign) = 0
         then some (Except.error "signature mismatch")
         else some (Except.ok ())) := by
      unfold Merchant.verifySign
      rw [ht]
      rfl
    rw [hred, hsig, constantTimeCompare_self]
    norm_num

set_option maxHeartbeats 4000000 in
/-- Witness for C4: the concrete notification `c4U` carries exactly its
expected signature and verifies successfully through the theorem's first
conjunct. -/
theorem c4_webhook_signature_verification_witness :
    c4U.type = some "payment" ∧
    Merchant.verifySign c4M c4U = some (Except.ok ()) :=
  ⟨rfl, c4_webhook_signature_verification.1 c4M c4U "payment" rfl (Or.inl rfl) (by rfl)⟩

end Cryptomus
